import Mathlib

/-!
Shallow embedding of the `StepperMotor` class of
`rpi5-stepper-motor-controller` (`src/src/index.ts`).

Modelling conventions:
* A GPIO line handle is a record tracking the observable effects the driver
  can have on it: whether output mode was requested (and with which initial
  value and consumer label), the value last written through `setValue`, and
  whether the line's claim was released.
* The external GPIO provider's `setValue` and `release` can fail; failures
  are injected through oracle (`ok`) functions. The source's iteratees call
  their async callbacks with no error argument, so a real failure is a
  synchronous throw that never enters the callback channel: during the
  first advance the throw unwinds synchronously out of the promise executor
  (the advance loop starts synchronously) and rejects the promise, while
  during any later advance it is thrown inside a `setTimeout` continuation
  and is uncaught — the promise never settles. Either way the final
  callback's error branch (`cleanup`, then `reject(err)`) is unreachable:
  cleanup runs only when every advance succeeded. `delete`'s loop is fully
  synchronous inside its executor, so a throwing `release` always surfaces
  as a rejection of the returned promise.
* JavaScript array reads out of bounds (`stepSequence[i]` for a missing row,
  `row[pin]` for a missing column) are modelled as distinguished errors,
  since at runtime they surface as a thrown `TypeError` / an `undefined`
  value instead of a legal 0/1 write.
* JavaScript numbers are modelled as `Int`; the `%` of the source is the
  truncating remainder `Int.tmod`, and `Array.from (\x7b length \x7d)` clamps a
  negative length to 0, which `Int.toNat` reproduces.
* The inter-step `setTimeout` delay has no effect on the modelled state and
  is not represented.
-/

/-- State of one GPIO line handle (`new Line(chip, pin)` of node-libgpiod),
as observed through the operations the driver performs on it. -/
structure Line where
  outputMode : Bool
  requestedInitial : Option Nat
  consumer : Option String
  lastWritten : Option Nat
  released : Bool
  deriving Repr, DecidableEq

/-- A freshly constructed line handle: no mode requested, never written,
not released. -/
def Line.new : Line :=
  { outputMode := false, requestedInitial := none, consumer := none
    lastWritten := none, released := false }

/-- `line.requestOutputMode(initialValue, consumerName)`: puts the line in
output mode, recording the requested initial value and consumer label.
Distinct from `setValue`: it does not count as driving the line. -/
def Line.requestOutputMode (l : Line) (initialValue : Nat) (consumerName : String) : Line :=
  { l with outputMode := true, requestedInitial := some initialValue
           consumer := some consumerName }

/-- `line.setValue(v)`: records `v` as the last value driven on the line. -/
def Line.setValue (l : Line) (v : Nat) : Line :=
  { l with lastWritten := some v }

/-- `line.release()`: releases the line's claim on its GPIO pin. -/
def Line.release (l : Line) : Line :=
  { l with released := true }

/-- The non-value part of a line handle: everything except `lastWritten`.
Used to state frame conditions. -/
def Line.frame (l : Line) : Bool × Option Nat × Option String × Bool :=
  (l.outputMode, l.requestedInitial, l.consumer, l.released)

/-- The default 8-row half-step sequence of the constructor. -/
def defaultStepSequence : List (List Nat) :=
  [[1, 0, 0, 1], [1, 0, 0, 0], [1, 1, 0, 0], [0, 1, 0, 0],
   [0, 1, 1, 0], [0, 0, 1, 0], [0, 0, 1, 1], [0, 0, 0, 1]]

/-- The constructor's `config` object: every field optional. -/
structure StepperConfig where
  chipName : Option String
  pins : Option (List Nat)
  stepSequence : Option (List (List Nat))
  initialStepCounter : Option Int
  consumerName : Option String
  deriving Repr

/-- `new StepperMotor({})`: the empty config, all defaults apply. -/
def StepperConfig.empty : StepperConfig :=
  { chipName := none, pins := none, stepSequence := none
    initialStepCounter := none, consumerName := none }

/-- The mutable state of a `StepperMotor` instance. -/
structure StepperMotor where
  chipName : String
  pins : List Nat
  gpioLines : List Line
  stepSequence : List (List Nat)
  motorStepCounter : Int
  deriving Repr, DecidableEq

/-- `setupPins(consumerName)`: requests output mode (initial value 0) on
every line. -/
def setupPins (consumerName : String) (lines : List Line) : List Line :=
  lines.map (fun l => l.requestOutputMode 0 consumerName)

/-- The `StepperMotor` constructor: resolves defaults, creates one line per
pin, stores the step sequence (custom if provided, the 8-row default
otherwise) and the initial step counter, then runs `setupPins`. The source
performs no validation of the config (in particular no width check and no
`InvalidConfigurationError`); its only failure modes are the external GPIO
provider's acquisition errors, which are outside the claims modelled here. -/
def mkStepperMotor (config : StepperConfig) : StepperMotor :=
  let chipName := config.chipName.getD "gpiochip4"
  let pins := config.pins.getD [17, 18, 27, 22]
  let initialStepCounter := config.initialStepCounter.getD 0
  let consumerName := config.consumerName.getD "stepper"
  { chipName := chipName
    pins := pins
    gpioLines := setupPins consumerName (pins.map (fun _ => Line.new))
    stepSequence := config.stepSequence.getD defaultStepSequence
    motorStepCounter := initialStepCounter }

/-- `cleanup()`: sets every line's value to 0. -/
def cleanup (m : StepperMotor) : StepperMotor :=
  { m with gpioLines := m.gpioLines.map (fun l => l.setValue 0) }

/-- The counter update of `move` (source lines 114-119):
`direction ? (c - 1 + 8) % 8 : (c + 1) % 8`. The modulus is the literal 8,
not the length of the stored step sequence. JavaScript `%` is the
truncating remainder, `Int.tmod`. -/
def nextCounter (direction : Bool) (c : Int) : Int :=
  if direction then Int.tmod (c - 1 + 8) 8 else Int.tmod (c + 1) 8

/-- Failures that can abort an advance of `move`. -/
inductive MoveError where
  /-- The external `setValue` on the given pin index failed during the given
  advance. -/
  | writeFail (advance pin : Nat)
  /-- `stepSequence[motorStepCounter]` does not exist (a `TypeError` at
  runtime: the row index is outside the stored table). -/
  | missingRow (advance : Nat) (rowIndex : Int)
  /-- The current row has no entry at the given pin's column index (the read
  yields `undefined` at runtime). -/
  | missingColumn (advance pin : Nat)
  deriving Repr, DecidableEq

/-- The index of the advance during which the failure was thrown. Advance 0
runs synchronously inside the promise executor; every later advance runs
inside the `setTimeout` continuation of its predecessor. -/
def MoveError.advance : MoveError → Nat
  | .writeFail adv _ => adv
  | .missingRow adv _ => adv
  | .missingColumn adv _ => adv

/-- JavaScript array read `seq[idx]` for an `Int` index: `none` when the
index is negative or past the end. -/
def rowAt (seq : List (List Nat)) (idx : Int) : Option (List Nat) :=
  if idx < 0 then none else seq.get? idx.toNat

/-- The per-advance pin loop (`async.each` over the pin indices, with
synchronous iteratees, hence effectively sequential): for each line, in
index order, read the current row's value at the line's column and write it
with `setValue`. `ok adv p` says whether the external write on pin `p`
succeeds during advance `adv`. A failing write (or out-of-bounds column
read) is a synchronous throw: it unwinds the pin loop, so the remaining
pins are not written, while writes already issued stay in effect. Returns
the updated lines, the trace of `(lineIndex, value)` writes issued, and the
thrown error, if any. -/
def drivePins (ok : Nat → Nat → Bool) (adv : Nat) (row : List Nat) :
    Nat → List Line → List Line × List (Nat × Nat) × Option MoveError
  | _, [] => ([], [], none)
  | p, l :: rest =>
    match row.get? p with
    | none => (l :: rest, [], some (.missingColumn adv p))
    | some v =>
      if ok adv p then
        let r := drivePins ok adv row (p + 1) rest
        (l.setValue v :: r.1, (p, v) :: r.2.1, r.2.2)
      else (l :: rest, [], some (.writeFail adv p))

/-- One advance of `move` (one `async.waterfall`): drive every line to the
current row's values, then — only if all writes succeeded — update
`motorStepCounter` with `nextCounter` (the waterfall's second task is never
reached when the write phase throws). A returned error records the thrown
failure (failed write or out-of-bounds row read) propagating out of the
write phase. -/
def oneAdvance (ok : Nat → Nat → Bool) (direction : Bool) (adv : Nat)
    (m : StepperMotor) : StepperMotor × List (Nat × Nat) × Option MoveError :=
  match rowAt m.stepSequence m.motorStepCounter with
  | none => (m, [], some (.missingRow adv m.motorStepCounter))
  | some row =>
    let r := drivePins ok adv row 0 m.gpioLines
    match r.2.2 with
    | some e => ({ m with gpioLines := r.1 }, r.2.1, some e)
    | none =>
      ({ m with gpioLines := r.1
                motorStepCounter := nextCounter direction m.motorStepCounter },
       r.2.1, none)

/-- The advance loop of `move` (`async.eachSeries` over `n` iterations,
`adv` being the index of the next advance): the first failing advance
aborts the remaining ones (the throw unwinds the loop); the error is
returned together with the state and the writes issued up to the throw. -/
def moveLoop (ok : Nat → Nat → Bool) (direction : Bool) :
    Nat → Nat → StepperMotor → StepperMotor × List (Nat × Nat) × Option MoveError
  | _, 0, m => (m, [], none)
  | adv, n + 1, m =>
    let r := oneAdvance ok direction adv m
    match r.2.2 with
    | some e => (r.1, r.2.1, some e)
    | none =>
      let rest := moveLoop ok direction (adv + 1) n r.1
      (rest.1, r.2.1 ++ rest.2.1, rest.2.2)

/-- How a `move` call terminates, as observed by the caller. -/
inductive MoveOutcome where
  /-- Every advance succeeded: the final `async.eachSeries` callback ran
  `cleanup()` and the promise resolved with `"Success"`. -/
  | resolved (value : String)
  /-- A failure was thrown during the first advance, which executes
  synchronously inside the promise executor: the promise rejects with the
  thrown error and `cleanup()` does not run. -/
  | rejected (e : MoveError)
  /-- A failure was thrown during a later advance, inside a `setTimeout`
  continuation: the exception is uncaught, the promise never settles, and
  `cleanup()` does not run. -/
  | crashed (e : MoveError)
  deriving Repr, DecidableEq

/-- Outcome of a `move` call: the driver state when `move` stops executing,
the full trace of `(lineIndex, value)` writes issued (including cleanup's
zero writes when cleanup ran), and how the call terminated. -/
structure MoveResult where
  state : StepperMotor
  writes : List (Nat × Nat)
  outcome : MoveOutcome
  deriving Repr

/-- `move({stepCount, direction, stepSleep})` (source defaults:
`stepCount = 4096`, `direction = false` i.e. forward, `stepSleep = 2`).
`Array.from (\x7b length: stepCount \x7d)` yields `stepCount.toNat` iterations
(a negative count is clamped to 0). When every advance succeeds, the final
`async.eachSeries` callback runs `cleanup()` and resolves `"Success"`. The
iteratees never pass an error to their callbacks, so a thrown failure
bypasses that callback entirely: thrown during advance 0 it rejects the
promise without cleanup; thrown during a later advance it is an uncaught
exception and the promise never settles. -/
def move (m : StepperMotor) (stepCount : Int) (direction : Bool)
    (ok : Nat → Nat → Bool) : MoveResult :=
  let r := moveLoop ok direction 0 stepCount.toNat m
  match r.2.2 with
  | some e =>
    { state := r.1
      writes := r.2.1
      outcome := if e.advance = 0 then MoveOutcome.rejected e
                 else MoveOutcome.crashed e }
  | none =>
    { state := cleanup r.1
      writes := r.2.1 ++ (List.range r.1.gpioLines.length).map (fun i => (i, 0))
      outcome := MoveOutcome.resolved "Success" }

/-- Failure of the external `release` on the line with the given index. -/
inductive DeleteError where
  | releaseFail (index : Nat)
  deriving Repr, DecidableEq

/-- The release loop of `delete` (`async.each` over the lines, iterations
effectively sequential): release each line's claim in order; a failing
release aborts the remaining releases. Already-released lines stay
released. -/
def deleteLoop (ok : Nat → Bool) : Nat → List Line → List Line × Option DeleteError
  | _, [] => ([], none)
  | i, l :: rest =>
    if ok i then
      let r := deleteLoop ok (i + 1) rest
      (l.release :: r.1, r.2)
    else (l :: rest, some (.releaseFail i))

/-- `delete()`: releases every line's claim; a release failure is delivered
to the caller as a rejection of the returned promise. `delete` never calls
`setValue` or `cleanup`. -/
def deleteMotor (m : StepperMotor) (ok : Nat → Bool) :
    StepperMotor × Except DeleteError Unit :=
  let r := deleteLoop ok 0 m.gpioLines
  ({ m with gpioLines := r.1 },
   match r.2 with
   | some e => Except.error e
   | none => Except.ok ())

/-- The driver of the README's basic usage: `new StepperMotor({...defaults})`. -/
def defaultMotor : StepperMotor :=
  mkStepperMotor StepperConfig.empty

/-- Scenario B driver: custom 2-row sequence `[[1,0],[0,1]]` and 2 pins. -/
def twoRowMotor : StepperMotor :=
  mkStepperMotor { StepperConfig.empty with
                   pins := some [17, 18], stepSequence := some [[1, 0], [0, 1]] }

/-- Oracle under which every external write succeeds. -/
def allWritesOk : Nat → Nat → Bool := fun _ _ => true

/-- Oracle under which the write phase of the 5th advance (index 4) fails at
its first pin, and every other write succeeds. -/
def failOnFifth : Nat → Nat → Bool := fun adv _ => adv != 4

/-- Oracle under which, in every advance, only the write to pin index 0
succeeds and the write to any later pin fails. -/
def failAfterFirstPin : Nat → Nat → Bool := fun _ p => p == 0

/-! ### Helper lemmas (shared, not tied to any single claim) -/

theorem Line.setValue_frame (l : Line) (v : Nat) : (l.setValue v).frame = l.frame := rfl

theorem Line.release_lastWritten (l : Line) : l.release.lastWritten = l.lastWritten := rfl

theorem cleanup_all_zero (m : StepperMotor) :
    ((cleanup m).gpioLines.all (fun l => l.lastWritten == some 0)) = true := by
  simp [cleanup, Line.setValue, List.all_map, Function.comp]

theorem cleanup_frame_eq (m : StepperMotor) :
    (cleanup m).gpioLines.map Line.frame = m.gpioLines.map Line.frame := by
  simp [cleanup, List.map_map, Function.comp, Line.setValue_frame]

theorem drivePins_frame (ok : Nat → Nat → Bool) (adv : Nat) (row : List Nat) :
    ∀ (p : Nat) (ls : List Line),
      ((drivePins ok adv row p ls).1).map Line.frame = ls.map Line.frame := by
  intro p ls
  induction ls generalizing p with
  | nil => rfl
  | cons l rest ih =>
    rw [drivePins]
    cases hrow : row.get? p with
    | none => rfl
    | some v =>
      cases hok : ok adv p with
      | false => simp [hok]
      | true => simp [hok, ih (p + 1), Line.setValue_frame]

theorem oneAdvance_frame (ok : Nat → Nat → Bool) (direction : Bool) (adv : Nat)
    (m : StepperMotor) :
    (oneAdvance ok direction adv m).1.chipName = m.chipName
  ∧ (oneAdvance ok direction adv m).1.pins = m.pins
  ∧ (oneAdvance ok direction adv m).1.stepSequence = m.stepSequence
  ∧ (oneAdvance ok direction adv m).1.gpioLines.map Line.frame
      = m.gpioLines.map Line.frame := by
  unfold oneAdvance
  cases hrow : rowAt m.stepSequence m.motorStepCounter with
  | none => simp
  | some row =>
    cases herr : (drivePins ok adv row 0 m.gpioLines).2.2 with
    | some e => simp [herr, drivePins_frame]
    | none => simp [herr, drivePins_frame]

theorem moveLoop_frame (ok : Nat → Nat → Bool) (direction : Bool) :
    ∀ (n adv : Nat) (m : StepperMotor),
      (moveLoop ok direction adv n m).1.chipName = m.chipName
    ∧ (moveLoop ok direction adv n m).1.pins = m.pins
    ∧ (moveLoop ok direction adv n m).1.stepSequence = m.stepSequence
    ∧ (moveLoop ok direction adv n m).1.gpioLines.map Line.frame
        = m.gpioLines.map Line.frame := by
  intro n
  induction n with
  | zero => exact fun adv m => ⟨rfl, rfl, rfl, rfl⟩
  | succ k ih =>
    intro adv m
    obtain ⟨h1, h2, h3, h4⟩ := oneAdvance_frame ok direction adv m
    rw [moveLoop]
    cases herr : (oneAdvance ok direction adv m).2.2 with
    | some e => exact ⟨h1, h2, h3, h4⟩
    | none =>
      obtain ⟨g1, g2, g3, g4⟩ := ih (adv + 1) (oneAdvance ok direction adv m).1
      exact ⟨g1.trans h1, g2.trans h2, g3.trans h3, g4.trans h4⟩

theorem move_toNat_zero (m : StepperMotor) (direction : Bool) (ok : Nat → Nat → Bool)
    (stepCount : Int) (h0 : stepCount.toNat = 0) :
    (move m stepCount direction ok).outcome = MoveOutcome.resolved "Success"
  ∧ (move m stepCount direction ok).state.motorStepCounter = m.motorStepCounter
  ∧ (move m stepCount direction ok).writes
      = (List.range m.gpioLines.length).map (fun i => (i, 0))
  ∧ ((move m stepCount direction ok).state.gpioLines.all
      (fun l => l.lastWritten == some 0)) = true := by
  unfold move
  rw [h0]
  exact ⟨rfl, rfl, rfl, cleanup_all_zero m⟩

/-! ### Claim theorems -/

/-- C1: the per-advance counter update of `move` wraps the row index with the
hard-coded literal 8, not with the length of the stored step sequence. For a
driver with the custom 2-row sequence `[[1,0],[0,1]]` standing at row index
1, one forward advance drives the counter to 2 — whereas the claimed law
`(currentIndex + 1) mod sequenceLength` yields `(1 + 1) mod 2 = 0`. The
claim therefore fails on the code for custom sequences whose length is not
8. -/
theorem nextCounter_ignores_sequence_length :
    (oneAdvance allWritesOk false 0
        { twoRowMotor with motorStepCounter := 1 }).1.motorStepCounter = 2
  ∧ nextCounter false 1 = 2
  ∧ ((1 + 1) % (2 : Int)) = 0 := by
  refine ⟨rfl, rfl, rfl⟩

/-- C2: the all-paths cleanup guarantee is false of the code. On the default
driver, `move(\x7bstepCount: 1\x7d)` whose external `setValue` fails on pin
index 1 of the first advance rejects with that raw error: the iteratee
never passes the error to its callback, the synchronous throw unwinds out
of the promise executor before the final callback can run, and `cleanup()`
never executes — so the promise settles (rejects) with line 0 still driven
to 1 (energized) and no line zeroed. The source's own final callback
(`this.cleanup()` then `reject(err)`) expresses the claimed intent, but its
error branch is unreachable. -/
theorem move_rejects_without_cleanup :
    (move defaultMotor 1 false failAfterFirstPin).outcome
      = MoveOutcome.rejected (MoveError.writeFail 0 1)
  ∧ (move defaultMotor 1 false failAfterFirstPin).writes = [(0, 1)]
  ∧ (move defaultMotor 1 false failAfterFirstPin).state.gpioLines.map
      Line.lastWritten = [some 1, none, none, none] := by
  refine ⟨rfl, rfl, rfl⟩

/-- C3: on the driver with the custom 2-row sequence `[[1,0],[0,1]]` and 2
pins, `move(\x7bstepCount: 3, direction: forward\x7d)` does not drive rows
`0, 1, 0` and end at index 1 as claimed: it drives rows 0 and 1 (writes
`(0,1),(1,0)` then `(0,0),(1,1)`), then the third advance reads the
nonexistent row 2 (the counter was advanced mod the hard-coded 8, not mod
2) and the resulting `TypeError`, thrown inside a `setTimeout`
continuation, crashes uncaught — the counter ends at 2 and the lines keep
row 1's values (no cleanup). -/
theorem move_custom_two_row_sequence_crashes :
    (move twoRowMotor 3 false allWritesOk).outcome
      = MoveOutcome.crashed (MoveError.missingRow 2 2)
  ∧ (move twoRowMotor 3 false allWritesOk).state.motorStepCounter = 2
  ∧ (move twoRowMotor 3 false allWritesOk).writes
      = [(0, 1), (1, 0), (0, 0), (1, 1)]
  ∧ (move twoRowMotor 3 false allWritesOk).state.gpioLines.map
      Line.lastWritten = [some 0, some 1] := by
  refine ⟨rfl, rfl, rfl, rfl⟩

/-- C4 counterexample: `move` with `stepCount = -1` on the default driver is
not rejected as a configuration error — it resolves with `"Success"` (the
source has no negative-step check; `Array.from (\x7b length: -1 \x7d)` is the
empty array, so the count is silently clamped to zero advances). -/
theorem move_negative_stepCount_resolves :
    (move defaultMotor (-1) false allWritesOk).outcome
      = MoveOutcome.resolved "Success"
  ∧ (move defaultMotor (-1) false allWritesOk).state.motorStepCounter = 0 := by
  refine ⟨rfl, rfl⟩

/-- C4 amended: a negative `stepCount` is silently clamped to zero advances:
`move` performs no advance, leaves `motorStepCounter` unchanged, issues only
cleanup's zero writes, and resolves successfully. No
`InvalidConfigurationError` is raised (none exists in the code). -/
theorem move_negative_stepCount_clamped (m : StepperMotor) (direction : Bool)
    (ok : Nat → Nat → Bool) (stepCount : Int) (h : stepCount < 0) :
    (move m stepCount direction ok).outcome = MoveOutcome.resolved "Success"
  ∧ (move m stepCount direction ok).state.motorStepCounter = m.motorStepCounter
  ∧ (move m stepCount direction ok).writes
      = (List.range m.gpioLines.length).map (fun i => (i, 0)) := by
  have h0 : stepCount.toNat = 0 := Int.toNat_of_nonpos h.le
  obtain ⟨h1, h2, h3, _⟩ := move_toNat_zero m direction ok stepCount h0
  exact ⟨h1, h2, h3⟩

/-- C4 amended, witness: the amended claim at the default driver with
`stepCount = -1`. -/
theorem move_negative_stepCount_clamped_witness :
    (move defaultMotor (-1) false allWritesOk).outcome
      = MoveOutcome.resolved "Success"
  ∧ (move defaultMotor (-1) false allWritesOk).state.motorStepCounter
      = defaultMotor.motorStepCounter
  ∧ (move defaultMotor (-1) false allWritesOk).writes
      = (List.range defaultMotor.gpioLines.length).map (fun i => (i, 0)) :=
  move_negative_stepCount_clamped defaultMotor false allWritesOk (-1) (by decide)

/-- C5: `move` with `stepCount = 0` performs zero advances: it resolves
successfully, leaves `motorStepCounter` unchanged, and the only writes
issued are cleanup's zeroing of the lines (which leaves every line's
last-written value 0). -/
theorem move_zero_stepCount (m : StepperMotor) (direction : Bool)
    (ok : Nat → Nat → Bool) :
    (move m 0 direction ok).outcome = MoveOutcome.resolved "Success"
  ∧ (move m 0 direction ok).state.motorStepCounter = m.motorStepCounter
  ∧ (move m 0 direction ok).writes
      = (List.range m.gpioLines.length).map (fun i => (i, 0))
  ∧ ((move m 0 direction ok).state.gpioLines.all
      (fun l => l.lastWritten == some 0)) = true :=
  move_toNat_zero m direction ok 0 rfl

/-- C6: the claim fails on the code. With the external write failing in the
5th of 10 requested advances on the default driver, `motorStepCounter` does
reflect exactly the 4 completed advances, but the failure is thrown inside
the `setTimeout` continuation of the 4th advance: it never reaches the
final callback, so the promise does not reject with it (it never settles)
and `cleanup()` never runs — the lines keep row 3's values `[0,1,0,0]`
(one coil left energized) instead of all reading 0. -/
theorem move_fifth_advance_failure_crashes_uncleaned :
    (move defaultMotor 10 false failOnFifth).outcome
      = MoveOutcome.crashed (MoveError.writeFail 4 0)
  ∧ (move defaultMotor 10 false failOnFifth).state.motorStepCounter = 4
  ∧ (move defaultMotor 10 false failOnFifth).state.gpioLines.map
      Line.lastWritten = [some 0, some 1, some 0, some 0] := by
  refine ⟨rfl, rfl, rfl⟩

/-- C7 counterexample: constructing a driver whose step-sequence row width
(2) differs from the pin-list length (4) does not fail — there is no width
validation and no `InvalidConfigurationError` in the code. The construction
yields a fully set-up driver (all 4 lines in output mode) whose stored rows
violate the equal-length invariant. -/
theorem constructor_accepts_mismatched_width :
    (mkStepperMotor { StepperConfig.empty with
        stepSequence := some [[1, 0], [0, 1]] }).pins.length = 4
  ∧ ((mkStepperMotor { StepperConfig.empty with
        stepSequence := some [[1, 0], [0, 1]] }).stepSequence.all
          (fun row => row.length == 4)) = false
  ∧ ((mkStepperMotor { StepperConfig.empty with
        stepSequence := some [[1, 0], [0, 1]] }).gpioLines.all
          (fun l => l.outputMode)) = true := by
  refine ⟨rfl, rfl, rfl⟩

/-- C7 amended: the constructor performs no width validation — any step
sequence and pin list are accepted and stored unchanged (one line is created
and set up per pin), whether or not the row width equals the pin count; no
`InvalidConfigurationError` is raised. -/
theorem constructor_stores_config_unvalidated (pins : List Nat)
    (seq : List (List Nat)) :
    (mkStepperMotor { StepperConfig.empty with
        pins := some pins, stepSequence := some seq }).stepSequence = seq
  ∧ (mkStepperMotor { StepperConfig.empty with
        pins := some pins, stepSequence := some seq }).pins = pins
  ∧ (mkStepperMotor { StepperConfig.empty with
        pins := some pins, stepSequence := some seq }).gpioLines.length
      = pins.length := by
  refine ⟨rfl, rfl, ?_⟩
  simp [mkStepperMotor, setupPins]

/-- C8: after construction, every bound line is in output mode and none has
been driven to any value (`setValue` has never run on it), and the motor
position equals the caller-supplied initial step counter (default 0) —
construction has no side effect on motor position. -/
theorem constructor_postcondition (config : StepperConfig) :
    ((mkStepperMotor config).gpioLines.all
        (fun l => l.outputMode && (l.lastWritten == (none : Option Nat)))) = true
  ∧ (mkStepperMotor config).motorStepCounter
      = config.initialStepCounter.getD 0 := by
  constructor
  · simp [mkStepperMotor, setupPins, Line.requestOutputMode, Line.new,
      List.all_map, Function.comp]
  · rfl

/-! ### Lemmas about the release loop of `delete` -/

theorem deleteLoop_lastWritten (ok : Nat → Bool) :
    ∀ (i : Nat) (ls : List Line),
      ((deleteLoop ok i ls).1).map Line.lastWritten = ls.map Line.lastWritten := by
  intro i ls
  induction ls generalizing i with
  | nil => rfl
  | cons l rest ih =>
    rw [deleteLoop]
    cases h : ok i with
    | false => simp [h]
    | true => simp [h, ih (i + 1), Line.release_lastWritten]

theorem deleteLoop_ok_all_released (ok : Nat → Bool) :
    ∀ (i : Nat) (ls : List Line), (deleteLoop ok i ls).2 = none →
      ((deleteLoop ok i ls).1.all Line.released) = true := by
  intro i ls
  induction ls generalizing i with
  | nil => intro _; rfl
  | cons l rest ih =>
    rw [deleteLoop]
    cases h : ok i with
    | false => intro hnone; simp at hnone
    | true =>
      intro hnone
      simp only [if_pos rfl] at hnone ⊢
      simp [Line.release]
      exact fun x hx =>
        List.all_eq_true.mp (ih (i + 1) (by simpa using hnone)) x hx

theorem deleteLoop_fail_isSome (ok : Nat → Bool) :
    ∀ (ls : List Line) (i : Nat), (∃ j, j < ls.length ∧ ok (i + j) = false) →
      ((deleteLoop ok i ls).2).isSome = true := by
  intro ls
  induction ls with
  | nil =>
    rintro i ⟨j, hj, _⟩
    exact absurd hj (by simp)
  | cons l rest ih =>
    rintro i ⟨j, hj, hfalse⟩
    rw [deleteLoop]
    cases h : ok i with
    | false => simp
    | true =>
      simp only [if_pos rfl]
      apply ih (i + 1)
      cases j with
      | zero =>
        rw [Nat.add_zero] at hfalse
        rw [h] at hfalse
        exact absurd hfalse (by simp)
      | succ j' =>
        refine ⟨j', ?_, ?_⟩
        · simpa using Nat.lt_of_succ_lt_succ hj
        · rw [show i + 1 + j' = i + (j' + 1) from by omega]
          exact hfalse

/-- C9: `delete` only releases: it never writes a line value (every line's
last-written value — and the step counter — are exactly as before the call),
when it resolves successfully every bound line's claim has been released,
and when some release fails the failure is delivered to the caller as a
rejection of the returned promise rather than being swallowed. -/
theorem delete_contract (m : StepperMotor) (ok : Nat → Bool) :
    (deleteMotor m ok).1.gpioLines.map Line.lastWritten
      = m.gpioLines.map Line.lastWritten
  ∧ (deleteMotor m ok).1.motorStepCounter = m.motorStepCounter
  ∧ ((deleteMotor m ok).2 = Except.ok () →
      ((deleteMotor m ok).1.gpioLines.all Line.released) = true)
  ∧ ((∃ j, j < m.gpioLines.length ∧ ok j = false) →
      ∃ e, (deleteMotor m ok).2 = Except.error e) := by
  refine ⟨deleteLoop_lastWritten ok 0 m.gpioLines, rfl, ?_, ?_⟩
  · intro hok
    have h2 : (deleteLoop ok 0 m.gpioLines).2 = none := by
      cases h2 : (deleteLoop ok 0 m.gpioLines).2 with
      | none => rfl
      | some e => simp [deleteMotor, h2] at hok
    have hall := deleteLoop_ok_all_released ok 0 m.gpioLines h2
    simpa [deleteMotor] using hall
  · rintro ⟨j, hj, hfalse⟩
    have hsome :=
      deleteLoop_fail_isSome ok m.gpioLines 0 ⟨j, hj, by simpa using hfalse⟩
    obtain ⟨e, he⟩ := Option.isSome_iff_exists.mp hsome
    exact ⟨e, by simp [deleteMotor, he]⟩

/-- C9 witness: on the default driver, `delete` with all releases succeeding
leaves every line released, and `delete` whose third release (index 2) fails
rejects with an error. -/
theorem delete_contract_witness :
    ((deleteMotor defaultMotor (fun _ => true)).1.gpioLines.all Line.released) = true
  ∧ (∃ e, (deleteMotor defaultMotor (fun i => i != 2)).2 = Except.error e) := by
  constructor
  · exact (delete_contract defaultMotor (fun _ => true)).2.2.1 rfl
  · exact (delete_contract defaultMotor (fun i => i != 2)).2.2.2
      ⟨2, by decide, by decide⟩

/-- C10: `move` and `cleanup` only mutate the step counter and the lines'
output values: the chip binding, the pin list, the step-sequence table and
the non-value part of every line handle (mode, requested initial value,
consumer label, released flag) are unchanged by both; `cleanup`
additionally leaves `motorStepCounter` unchanged. -/
theorem move_cleanup_frame (m : StepperMotor) (stepCount : Int)
    (direction : Bool) (ok : Nat → Nat → Bool) :
    (move m stepCount direction ok).state.chipName = m.chipName
  ∧ (move m stepCount direction ok).state.pins = m.pins
  ∧ (move m stepCount direction ok).state.stepSequence = m.stepSequence
  ∧ (move m stepCount direction ok).state.gpioLines.map Line.frame
      = m.gpioLines.map Line.frame
  ∧ (cleanup m).chipName = m.chipName
  ∧ (cleanup m).pins = m.pins
  ∧ (cleanup m).stepSequence = m.stepSequence
  ∧ (cleanup m).motorStepCounter = m.motorStepCounter
  ∧ (cleanup m).gpioLines.map Line.frame = m.gpioLines.map Line.frame := by
  obtain ⟨h1, h2, h3, h4⟩ := moveLoop_frame ok direction stepCount.toNat 0 m
  have key :
      (move m stepCount direction ok).state.chipName = m.chipName
    ∧ (move m stepCount direction ok).state.pins = m.pins
    ∧ (move m stepCount direction ok).state.stepSequence = m.stepSequence
    ∧ (move m stepCount direction ok).state.gpioLines.map Line.frame
        = m.gpioLines.map Line.frame := by
    simp only [move]
    cases herr : (moveLoop ok direction 0 stepCount.toNat m).2.2 with
    | some e => exact ⟨h1, h2, h3, h4⟩
    | none => exact ⟨h1, h2, h3, (cleanup_frame_eq _).trans h4⟩
  exact ⟨key.1, key.2.1, key.2.2.1, key.2.2.2, rfl, rfl, rfl, rfl,
    cleanup_frame_eq m⟩
